import Mathlib

/-!
Shallow embedding of the Treatment Recommendation & Dosage Calculation
Engine of the crop-advisory backend
(`src/backend/app/services/cost_calculation.py`,
`src/backend/app/services/pesticide_recommendation.py`, and the engine
part of the `/api/analyze-image` handler in `src/backend/main.py`).

Modelling conventions:
- Python floats are modelled as rationals (`ℚ`): every constant in the
  reference data is a short decimal and all operations are `* / + -`,
  so real-valued arithmetic is the intended reading.
- Python dicts holding reference data are association lists
  (`List (String × _)`) with `List.lookup`; `dict.get(k, default)`
  becomes an `Option` match.
- Python `str.lower` is `toLowerStr` (per-character ASCII lowering,
  `Char.toLower`); the `in` substring test is `containsSub`.
- The services' `self` state (the tables built by `load_pricing_data` /
  `load_pesticide_data`) is passed explicitly as a structure value;
  the methods only ever read it.
- String formatting of the result dicts (`f"₹{x:.2f}"` etc.) is
  presentation; the embedding keeps the underlying numeric values.
  Fields of the result dicts that no claim touches
  (`reduction_percentage`, `application_instructions`,
  `cost_breakdown`, per-profile `dosage_per_hectare` / `price_per_kg` /
  `safety_period` sub-dicts) are omitted from the records.
-/

/-- `listBeginsWith hay needle`: `needle` is an initial run of `hay`
(character-list version of string prefix testing, kept structural so the
kernel can evaluate it). -/
def listBeginsWith : List Char → List Char → Bool
  | _, [] => true
  | [], _ :: _ => false
  | a :: as, b :: bs => a == b && listBeginsWith as bs

/-- `listHasSeg hay needle`: `needle` occurs as a contiguous run of
`hay` (Python's `needle in hay` on strings). -/
def listHasSeg : List Char → List Char → Bool
  | [], needle => needle.isEmpty
  | a :: as, needle => listBeginsWith (a :: as) needle || listHasSeg as needle

/-- Python `needle in hay` for strings. -/
def containsSub (hay needle : String) : Bool :=
  listHasSeg hay.toList needle.toList

/-- Python `s.lower()` (ASCII; all reference data is ASCII). -/
def toLowerStr (s : String) : String :=
  String.mk (s.toList.map Char.toLower)

/-- One entry of `CostCalculationService.pesticide_prices`
(`cost_calculation.py` lines 24-109). -/
structure PesticideData where
  price_per_kg : ℚ
  dosage_per_hectare : ℚ
  water_ratio : ℚ
  coverage_per_liter : ℚ
deriving Repr, DecidableEq

/-- The read-only state of `CostCalculationService` built by
`load_pricing_data` (`cost_calculation.py` lines 16-121). -/
structure CostCalculationService where
  pesticide_prices : List (String × PesticideData)
  regional_multipliers : List (String × ℚ)
deriving Repr, DecidableEq

/-- `CostCalculationService.load_pricing_data`
(`cost_calculation.py` lines 20-121): the pricing table and the
regional multiplier table. -/
def load_pricing_data : CostCalculationService :=
  { pesticide_prices :=
      [ ("Copper Hydroxide", ⟨450, 2.5, 500, 0.1⟩)
      , ("Streptomycin", ⟨1200, 0.5, 800, 0.1⟩)
      , ("Mancozeb", ⟨520, 2.5, 400, 0.1⟩)
      , ("Chlorothalonil", ⟨680, 2.0, 500, 0.1⟩)
      , ("Metalaxyl", ⟨950, 1.5, 600, 0.1⟩)
      , ("Copper Sulfate", ⟨380, 3.0, 400, 0.1⟩)
      , ("Carbendazim", ⟨850, 1.0, 600, 0.1⟩)
      , ("Propiconazole", ⟨1500, 0.5, 800, 0.1⟩)
      , ("Sulfur", ⟨200, 3.0, 300, 0.1⟩)
      , ("Cymoxanil", ⟨1200, 0.5, 700, 0.1⟩)
      , ("Fosetyl-Al", ⟨780, 2.5, 500, 0.1⟩)
      , ("Triadimefon", ⟨2000, 0.25, 1000, 0.1⟩)
      , ("Metalaxyl + Mancozeb", ⟨850, 2.0, 500, 0.1⟩)
      , ("Bleaching Powder", ⟨150, 10.0, 100, 0.1⟩) ]
  , regional_multipliers :=
      [ ("north", 1.0), ("south", 1.1), ("east", 0.95)
      , ("west", 1.05), ("central", 1.0), ("default", 1.0) ] }

/-- `get_severity_multiplier` (`cost_calculation.py` lines 210-221):
dict lookup on the lower-cased severity with default `1.0`. -/
def get_severity_multiplier (severity : String) : ℚ :=
  let s := toLowerStr severity
  if s = "mild" then 0.8
  else if s = "moderate" then 1.0
  else if s = "severe" then 1.3
  else if s = "healthy" then 0.0
  else 1.0

/-- `get_applications_needed` (`cost_calculation.py` lines 244-255):
dict lookup on the lower-cased severity with default `3`. -/
def get_applications_needed (severity : String) : ℕ :=
  let s := toLowerStr severity
  if s = "mild" then 2
  else if s = "moderate" then 3
  else if s = "severe" then 4
  else if s = "healthy" then 0
  else 3

/-- Keyword list of the first (north) branch of
`get_regional_multiplier` (`cost_calculation.py` line 233). -/
def north_states : List String :=
  ["punjab", "haryana", "delhi", "rajasthan", "up", "uttarakhand"]

/-- Keyword list of the south branch (`cost_calculation.py` line 235). -/
def south_states : List String :=
  ["karnataka", "tamil nadu", "kerala", "andhra", "telangana"]

/-- Keyword list of the east branch (`cost_calculation.py` line 237). -/
def east_states : List String :=
  ["west bengal", "odisha", "bihar", "jharkhand", "assam"]

/-- Keyword list of the west branch (`cost_calculation.py` line 239). -/
def west_states : List String :=
  ["maharashtra", "gujarat", "goa", "rajasthan"]

/-- The branch structure of `get_regional_multiplier`
(`cost_calculation.py` lines 223-242), factored so that the chosen
table key is visible: each branch of the source returns
`self.regional_multipliers[key]` for the key computed here. -/
def get_regional_bucket (location : String) : String :=
  if location = "" then "default"
  else
    let location_lower := toLowerStr location
    if north_states.any (fun state => containsSub location_lower state) then "north"
    else if south_states.any (fun state => containsSub location_lower state) then "south"
    else if east_states.any (fun state => containsSub location_lower state) then "east"
    else if west_states.any (fun state => containsSub location_lower state) then "west"
    else "central"

/-- `get_regional_multiplier` (`cost_calculation.py` lines 223-242):
the multiplier-table entry for the resolved bucket.  All six bucket
keys are present in the loaded table, so the `getD 1` default is never
taken for `load_pricing_data`. -/
def get_regional_multiplier (svc : CostCalculationService) (location : String) : ℚ :=
  ((svc.regional_multipliers.lookup (get_regional_bucket location)).getD 1)

/-- The numeric content of the dict returned by
`calculate_treatment_cost` / `get_default_cost_calculation`
(`cost_calculation.py` lines 186-204, 308-326); formatting and the
fields listed in the module header are omitted. -/
structure CostResult where
  pesticide_name : String
  amount_per_hectare : ℚ
  total_amount_kg : ℚ
  price_per_kg : ℚ
  total_cost : ℚ
  total_water : ℚ
  applications_needed : ℕ
  cost_per_application : ℚ
  potential_savings : ℚ
deriving Repr, DecidableEq

/-- `get_default_cost_calculation` (`cost_calculation.py` lines
296-326): the fallback plan based on Copper Hydroxide, 3 applications,
independent of severity and location.  For the loaded service the
`getD` default record is never taken (the key is present). -/
def get_default_cost_calculation (svc : CostCalculationService) (farm_size : ℚ) : CostResult :=
  let default_data := (svc.pesticide_prices.lookup "Copper Hydroxide").getD ⟨0, 0, 0, 0⟩
  let dosage := default_data.dosage_per_hectare * farm_size
  let cost := dosage * default_data.price_per_kg
  let water := dosage * default_data.water_ratio
  { pesticide_name := "Copper Hydroxide"
  , amount_per_hectare := default_data.dosage_per_hectare
  , total_amount_kg := dosage
  , price_per_kg := default_data.price_per_kg
  , total_cost := cost
  , total_water := water
  , applications_needed := 3
  , cost_per_application := cost / 3
  , potential_savings := cost * 0.3 }

/-- Control-flow observation: the division
`total_cost / applications_needed` at line 177 of
`cost_calculation.py` is reached exactly when the pesticide list is
nonempty and its head is in the price table (the two earlier returns
at lines 143-152 are the only ways to skip it). -/
def division_reached (svc : CostCalculationService) (pesticides : List String) : Bool :=
  match pesticides with
  | [] => false
  | p :: _ => (svc.pesticide_prices.lookup p).isSome

/-- `calculate_treatment_cost` (`cost_calculation.py` lines 123-208).
An empty list or an unknown head pesticide short-circuits to the
default calculation (lines 143-152).  When
`get_applications_needed severity = 0` the source performs
`total_cost / 0` at line 177, which raises `ZeroDivisionError`; the
blanket `except` at line 206 then returns the default calculation —
that exceptional path is the `applications_needed = 0` branch below.
Weather is NOT an input of this function. -/
def calculate_treatment_cost (svc : CostCalculationService)
    (pesticides : List String) (farm_size : ℚ)
    (severity : String) (location : String) : CostResult :=
  match pesticides with
  | [] => get_default_cost_calculation svc farm_size
  | primary_pesticide :: _ =>
    match svc.pesticide_prices.lookup primary_pesticide with
    | none => get_default_cost_calculation svc farm_size
    | some pesticide_data =>
      let base_dosage_per_hectare := pesticide_data.dosage_per_hectare
      let severity_multiplier := get_severity_multiplier severity
      let adjusted_dosage_per_hectare := base_dosage_per_hectare * severity_multiplier
      let total_amount_kg := adjusted_dosage_per_hectare * farm_size
      let regional_multiplier := get_regional_multiplier svc location
      let price_per_kg := pesticide_data.price_per_kg * regional_multiplier
      let total_cost := total_amount_kg * price_per_kg
      let total_water_needed := total_amount_kg * pesticide_data.water_ratio
      let applications_needed := get_applications_needed severity
      if applications_needed = 0 then
        get_default_cost_calculation svc farm_size
      else
        { pesticide_name := primary_pesticide
        , amount_per_hectare := adjusted_dosage_per_hectare
        , total_amount_kg := total_amount_kg
        , price_per_kg := price_per_kg
        , total_cost := total_cost
        , total_water := total_water_needed
        , applications_needed := applications_needed
        , cost_per_application := total_cost / (applications_needed : ℚ)
        , potential_savings := total_cost * (1.5 - 1) }

/-- One disease entry of
`PesticideRecommendationService.pesticide_database`
(`pesticide_recommendation.py` lines 25-290), together with the keys
the recommendation methods may add to the (copied) dict:
`weather_note`, `timing`, `follow_up_schedule` are `Option`s that are
`none` while the key is absent.  `application_frequency` is an
`Option` because the `Healthy` entries lack that key.  The per-entry
`dosage_per_hectare` / `price_per_kg` / `safety_period` sub-dicts are
omitted (no modelled code path reads them). -/
structure RecDict where
  primary_pesticides : List String
  alternative_pesticides : List String
  application_method : String
  application_frequency : Option String
  prevention_tips : List String
  weather_note : Option String
  timing : Option (List String)
  follow_up_schedule : Option (List String)
deriving Repr, DecidableEq

/-- The read-only state of `PesticideRecommendationService`
(`pesticide_recommendation.py` lines 17-19): crop → disease → entry. -/
structure PesticideRecommendationService where
  pesticide_database : List (String × List (String × RecDict))
deriving Repr, DecidableEq

/-- `PesticideRecommendationService.load_pesticide_data`
(`pesticide_recommendation.py` lines 21-292). -/
def load_pesticide_data : PesticideRecommendationService :=
  { pesticide_database :=
      [ ("tomato",
          [ ("Bacterial_spot",
              { primary_pesticides := ["Copper Hydroxide", "Streptomycin"]
              , alternative_pesticides := ["Copper Sulfate", "Mancozeb"]
              , application_method := "Foliar spray"
              , application_frequency := some "Every 7-10 days"
              , prevention_tips :=
                  [ "Use disease-free seeds", "Avoid overhead irrigation"
                  , "Maintain proper plant spacing", "Remove infected plant debris" ]
              , weather_note := none, timing := none, follow_up_schedule := none })
          , ("Early_blight",
              { primary_pesticides := ["Mancozeb", "Chlorothalonil"]
              , alternative_pesticides := ["Copper Hydroxide", "Metalaxyl"]
              , application_method := "Foliar spray"
              , application_frequency := some "Every 10-14 days"
              , prevention_tips :=
                  [ "Crop rotation", "Remove lower leaves touching soil"
                  , "Improve air circulation", "Avoid water stress" ]
              , weather_note := none, timing := none, follow_up_schedule := none })
          , ("Late_blight",
              { primary_pesticides := ["Metalaxyl + Mancozeb", "Cymoxanil"]
              , alternative_pesticides := ["Copper Hydroxide", "Fosetyl-Al"]
              , application_method := "Foliar spray"
              , application_frequency := some "Every 5-7 days during outbreak"
              , prevention_tips :=
                  [ "Monitor weather conditions", "Use resistant varieties"
                  , "Ensure good drainage", "Apply preventive sprays" ]
              , weather_note := none, timing := none, follow_up_schedule := none })
          , ("Leaf_Mold",
              { primary_pesticides := ["Chlorothalonil", "Mancozeb"]
              , alternative_pesticides := ["Copper Hydroxide", "Propiconazole"]
              , application_method := "Foliar spray"
              , application_frequency := some "Every 10-14 days"
              , prevention_tips :=
                  [ "Improve greenhouse ventilation", "Reduce humidity"
                  , "Avoid overhead watering", "Remove infected leaves" ]
              , weather_note := none, timing := none, follow_up_schedule := none })
          , ("Healthy",
              { primary_pesticides := []
              , alternative_pesticides := []
              , application_method := "Preventive measures only"
              , application_frequency := none
              , prevention_tips :=
                  [ "Maintain good plant hygiene", "Regular monitoring"
                  , "Proper nutrition", "Adequate spacing" ]
              , weather_note := none, timing := none, follow_up_schedule := none }) ])
      , ("brinjal",
          [ ("Bacterial_wilt",
              { primary_pesticides := ["Streptomycin", "Copper Hydroxide"]
              , alternative_pesticides := ["Copper Sulfate", "Bleaching Powder"]
              , application_method := "Soil drench and foliar spray"
              , application_frequency := some "Every 15 days"
              , prevention_tips :=
                  [ "Use resistant varieties", "Soil solarization"
                  , "Crop rotation", "Avoid waterlogging" ]
              , weather_note := none, timing := none, follow_up_schedule := none })
          , ("Cercospora_leaf_spot",
              { primary_pesticides := ["Mancozeb", "Chlorothalonil"]
              , alternative_pesticides := ["Copper Hydroxide", "Carbendazim"]
              , application_method := "Foliar spray"
              , application_frequency := some "Every 10-14 days"
              , prevention_tips :=
                  [ "Remove infected leaves", "Improve air circulation"
                  , "Avoid overhead irrigation", "Use clean seeds" ]
              , weather_note := none, timing := none, follow_up_schedule := none })
          , ("Healthy",
              { primary_pesticides := []
              , alternative_pesticides := []
              , application_method := "Preventive measures only"
              , application_frequency := none
              , prevention_tips :=
                  [ "Regular field inspection", "Proper fertilization"
                  , "Weed management", "Integrated pest management" ]
              , weather_note := none, timing := none, follow_up_schedule := none }) ])
      , ("capsicum",
          [ ("Bacterial_spot",
              { primary_pesticides := ["Copper Hydroxide", "Streptomycin"]
              , alternative_pesticides := ["Copper Sulfate", "Mancozeb"]
              , application_method := "Foliar spray"
              , application_frequency := some "Every 7-10 days"
              , prevention_tips :=
                  [ "Use certified seeds", "Avoid water splash"
                  , "Sanitize tools", "Remove plant debris" ]
              , weather_note := none, timing := none, follow_up_schedule := none })
          , ("Powdery_mildew",
              { primary_pesticides := ["Sulfur", "Propiconazole"]
              , alternative_pesticides := ["Carbendazim", "Triadimefon"]
              , application_method := "Foliar spray"
              , application_frequency := some "Every 10-14 days"
              , prevention_tips :=
                  [ "Ensure good air circulation", "Avoid excessive nitrogen"
                  , "Monitor humidity levels", "Use resistant varieties" ]
              , weather_note := none, timing := none, follow_up_schedule := none })
          , ("Anthracnose",
              { primary_pesticides := ["Mancozeb", "Chlorothalonil"]
              , alternative_pesticides := ["Copper Hydroxide", "Carbendazim"]
              , application_method := "Foliar spray"
              , application_frequency := some "Every 10-14 days"
              , prevention_tips :=
                  [ "Harvest fruits at proper maturity", "Handle fruits carefully"
                  , "Maintain field sanitation", "Store in proper conditions" ]
              , weather_note := none, timing := none, follow_up_schedule := none })
          , ("Healthy",
              { primary_pesticides := []
              , alternative_pesticides := []
              , application_method := "Preventive measures only"
              , application_frequency := none
              , prevention_tips :=
                  [ "Regular monitoring", "Balanced nutrition"
                  , "Proper irrigation", "Pest management" ]
              , weather_note := none, timing := none, follow_up_schedule := none }) ]) ] }

/-- `self.pesticide_database.get(crop_type, {}).get(disease, {})`
followed by the `if not disease_data` emptiness test
(`pesticide_recommendation.py` lines 305-308): `none` is the empty
dict. -/
def db_lookup (svc : PesticideRecommendationService)
    (crop_type disease : String) : Option RecDict :=
  match svc.pesticide_database.lookup crop_type with
  | none => none
  | some crop_data => crop_data.lookup disease

/-- `get_default_recommendations` (`pesticide_recommendation.py`
lines 451-473): the engine-wide default profile.  Note: no fallback
flag of any kind is set, and the substance names are ordinary catalog
names. -/
def get_default_recommendations (_crop_type : String) : RecDict :=
  { primary_pesticides := ["Copper Hydroxide", "Mancozeb"]
  , alternative_pesticides := ["Chlorothalonil"]
  , application_method := "Foliar spray"
  , application_frequency := none
  , prevention_tips :=
      [ "Regular field monitoring", "Maintain plant hygiene"
      , "Proper irrigation management", "Use disease-free planting material" ]
  , weather_note := none
  , timing := some
      [ "Apply at first sign of disease", "Best time: Early morning or evening" ]
  , follow_up_schedule := some
      [ "Monitor weekly", "Repeat application as needed" ] }

/-- `adjust_for_severity` (`pesticide_recommendation.py` lines
333-358).  The source works on `disease_data.copy()` and only rebinds
keys of the copy; the severity comparisons are EXACT matches against
the lower-case literals `'severe'` and `'mild'` (no `.lower()`). -/
def adjust_for_severity (disease_data : RecDict) (severity : String) : RecDict :=
  if severity = "severe" then
    if disease_data.primary_pesticides.length > 1 then
      { disease_data with
          application_method :=
            disease_data.application_method ++ " (combination treatment recommended)"
        , application_frequency := some "Every 5-7 days until controlled" }
    else disease_data
  else if severity = "mild" then
    if disease_data.alternative_pesticides ≠ [] then
      let copper_options :=
        (disease_data.primary_pesticides ++ disease_data.alternative_pesticides).filter
          (fun p => containsSub (toLowerStr p) "copper")
      if copper_options ≠ [] then
        { disease_data with primary_pesticides := copper_options.take 2 }
      else disease_data
    else disease_data
  else disease_data

/-- `adjust_for_weather` (`pesticide_recommendation.py` lines
360-381): only ever sets the advisory `weather_note` key; no dosage
quantity exists in, or is changed by, this function. -/
def adjust_for_weather (recommendations : RecDict) (weather_conditions : String) : RecDict :=
  if weather_conditions = "" then recommendations
  else
    let weather_lower := toLowerStr weather_conditions
    if ["rain", "wet", "humid"].any (fun word => containsSub weather_lower word) then
      { recommendations with
          weather_note := some "Avoid application during rain. Apply systemic fungicides for better rain-fastness." }
    else if ["hot", "dry", "sunny"].any (fun word => containsSub weather_lower word) then
      { recommendations with
          weather_note := some "Apply during cooler parts of day (early morning/evening). Increase water volume for better coverage." }
    else if containsSub weather_lower "wind" then
      { recommendations with
          weather_note := some "Avoid application during windy conditions to prevent drift. Use appropriate nozzles." }
    else recommendations

/-- `get_timing_recommendations` (`pesticide_recommendation.py` lines
383-411). -/
def get_timing_recommendations (disease severity weather : String) : List String :=
  (if severity = "severe" then
    ["Apply immediately upon detection", "Repeat application every 5-7 days"]
  else
    ["Apply at first sign of symptoms", "Follow regular spray schedule"])
  ++
  (if containsSub (toLowerStr weather) "rain" then
    ["Apply after rain stops and leaves dry"
    , "Check weather forecast for 24-hour rain-free period"]
  else
    ["Best application time: Early morning (6-10 AM) or evening (4-7 PM)"
    , "Avoid application during peak sun hours"])
  ++
  (if containsSub (toLowerStr disease) "blight" then
    ["Apply preventively during favorable disease conditions"]
  else if containsSub (toLowerStr disease) "spot" then
    ["Apply at 7-10 day intervals during disease season"]
  else [])

/-- `get_follow_up_schedule` (`pesticide_recommendation.py` lines
413-449): the severity comparisons are exact matches (anything other
than `'severe'` / `'moderate'` falls into the mild branch), and the
prevention-only schedule is keyed on the lower-cased DISEASE name
being `'healthy'`, overriding the severity-chosen schedule. -/
def get_follow_up_schedule (disease severity : String) : List String :=
  let schedule :=
    if severity = "severe" then
      [ "Monitor daily for first week"
      , "Assess treatment effectiveness after 7 days"
      , "Continue treatment every 5-7 days until controlled"
      , "Switch to preventive schedule once controlled" ]
    else if severity = "moderate" then
      [ "Monitor every 2-3 days"
      , "Assess after 10 days"
      , "Continue treatment every 10-14 days"
      , "Reduce frequency as symptoms improve" ]
    else
      [ "Monitor weekly"
      , "Assess after 14 days"
      , "Apply preventive treatments as needed"
      , "Continue monitoring throughout season" ]
  if toLowerStr disease = "healthy" then
    [ "Continue regular monitoring"
    , "Apply preventive measures"
    , "Maintain good cultural practices" ]
  else schedule

/-- `get_recommendations` (`pesticide_recommendation.py` lines
294-331).  A missing crop or disease entry returns the default
recommendations; otherwise severity and weather adjustments are
applied to a copy of the entry and the `timing` /
`follow_up_schedule` keys are added.  No statement in the `try` body
can raise for the loaded database, so the `except` fallback is
unreachable and not modelled. -/
def get_recommendations (svc : PesticideRecommendationService)
    (disease crop_type severity weather_conditions : String) : RecDict :=
  match db_lookup svc crop_type disease with
  | none => get_default_recommendations crop_type
  | some disease_data =>
    let recommendations := adjust_for_severity disease_data severity
    let recommendations := adjust_for_weather recommendations weather_conditions
    { recommendations with
        timing := some (get_timing_recommendations disease severity weather_conditions)
      , follow_up_schedule := some (get_follow_up_schedule disease severity) }

/-- The module-level service instance `pesticide_service`
(`src/backend/main.py` line 48). -/
def pesticide_service : PesticideRecommendationService := load_pesticide_data

/-- The module-level service instance `cost_service`
(`src/backend/main.py` line 49). -/
def cost_service : CostCalculationService := load_pricing_data

/-- The engine part of the `/api/analyze-image` response
(`src/backend/main.py` lines 94-150). -/
structure AnalyzeResult where
  recommendations : RecDict
  cost : CostResult
deriving Repr, DecidableEq

/-- The engine pipeline of `analyze_crop_image`
(`src/backend/main.py` lines 94-108): recommendations first, then the
cost calculation on the recommended primary pesticides.  The handler
performs NO validation of `farm_size`; the form value flows through
unchanged.  File handling, classification and persistence are the
out-of-scope collaborators. -/
def analyze_pipeline (rsvc : PesticideRecommendationService)
    (csvc : CostCalculationService)
    (crop_type disease severity : String) (farm_size : ℚ)
    (location weather_conditions : String) : AnalyzeResult :=
  let recommendations := get_recommendations rsvc disease crop_type severity weather_conditions
  let cost := calculate_treatment_cost csvc
    recommendations.primary_pesticides farm_size severity location
  ⟨recommendations, cost⟩

/-- `get_recommendations` as a transition on the service state.  Every
access to `self` in the source method (and in the helpers it calls) is
a read, and the returned dict is built from `disease_data.copy()`
(line 337) whose keys are only ever rebound, so the state after the
call is the state before it. -/
def get_recommendations_step (svc : PesticideRecommendationService)
    (disease crop_type severity weather_conditions : String) :
    RecDict × PesticideRecommendationService :=
  (get_recommendations svc disease crop_type severity weather_conditions, svc)

/-- `calculate_treatment_cost` as a transition on the service state:
the method and its helpers only read `self.pesticide_prices` and
`self.regional_multipliers`. -/
def calculate_treatment_cost_step (svc : CostCalculationService)
    (pesticides : List String) (farm_size : ℚ)
    (severity : String) (location : String) :
    CostResult × CostCalculationService :=
  (calculate_treatment_cost svc pesticides farm_size severity location, svc)

/-- The `RegionBucket` enumeration of the spec (§3). -/
inductive RegionBucket where
  | North
  | South
  | East
  | West
  | Central
  | Default
deriving Repr, DecidableEq

/-- The key under which each bucket's multiplier is stored in the
regional table. -/
def bucketKey : RegionBucket → String
  | RegionBucket.North => "north"
  | RegionBucket.South => "south"
  | RegionBucket.East => "east"
  | RegionBucket.West => "west"
  | RegionBucket.Central => "central"
  | RegionBucket.Default => "default"

/-- The ordered (keyword-list, bucket) rules of the spec's region
resolver, in the fixed priority order North, South, East, West. -/
def region_rules : List (List String × RegionBucket) :=
  [ (north_states, RegionBucket.North)
  , (south_states, RegionBucket.South)
  , (east_states, RegionBucket.East)
  , (west_states, RegionBucket.West) ]

/-- Ordered-rule evaluator: the first rule whose keyword list matches
wins; no match resolves to Central. -/
def firstMatchBucket : List (List String × RegionBucket) → String → RegionBucket
  | [], _ => RegionBucket.Central
  | (keywords, bucket) :: rest, location_lower =>
    if keywords.any (fun keyword => containsSub location_lower keyword) then bucket
    else firstMatchBucket rest location_lower

/-- Modelled from the spec (§4.3 `resolveRegion`): empty input is the
Default bucket; otherwise the lower-cased text is tested against the
keyword lists in priority order with first match winning; nonempty
unmatched text is Central. -/
def resolveRegion (locationText : String) : RegionBucket :=
  if locationText = "" then RegionBucket.Default
  else firstMatchBucket region_rules (toLowerStr locationText)

/-- The `SeverityTier` enumeration of the spec (§3), ordered Healthy <
Mild < Moderate < Severe. -/
inductive SeverityTier where
  | Healthy
  | Mild
  | Moderate
  | Severe
deriving Repr, DecidableEq

/-- The severity string naming each tier in the code. -/
def tierName : SeverityTier → String
  | SeverityTier.Healthy => "healthy"
  | SeverityTier.Mild => "mild"
  | SeverityTier.Moderate => "moderate"
  | SeverityTier.Severe => "severe"

/-- The canonical dosage multiplier of each tier (spec §3). -/
def tierMultiplier : SeverityTier → ℚ
  | SeverityTier.Healthy => 0
  | SeverityTier.Mild => 0.8
  | SeverityTier.Moderate => 1.0
  | SeverityTier.Severe => 1.3

/-- The canonical application count of each tier (spec §3). -/
def tierApplications : SeverityTier → ℕ
  | SeverityTier.Healthy => 0
  | SeverityTier.Mild => 2
  | SeverityTier.Moderate => 3
  | SeverityTier.Severe => 4

/-- The severe-severity follow-up schedule literal of
`get_follow_up_schedule` (`pesticide_recommendation.py` lines 420-425). -/
def severe_follow_up : List String :=
  [ "Monitor daily for first week"
  , "Assess treatment effectiveness after 7 days"
  , "Continue treatment every 5-7 days until controlled"
  , "Switch to preventive schedule once controlled" ]

/-- The moderate-severity follow-up schedule literal (lines 427-432). -/
def moderate_follow_up : List String :=
  [ "Monitor every 2-3 days"
  , "Assess after 10 days"
  , "Continue treatment every 10-14 days"
  , "Reduce frequency as symptoms improve" ]

/-- The else-branch (mild) follow-up schedule literal (lines 434-439). -/
def mild_follow_up : List String :=
  [ "Monitor weekly"
  , "Assess after 14 days"
  , "Apply preventive treatments as needed"
  , "Continue monitoring throughout season" ]

/-- The prevention-only follow-up schedule literal, installed when the
lower-cased disease name is `healthy` (lines 442-447). -/
def healthy_follow_up : List String :=
  [ "Continue regular monitoring"
  , "Apply preventive measures"
  , "Maintain good cultural practices" ]

/-- Primary pesticide list of a catalog profile (empty for a missing
profile); used to compare the fallback's substance names with the
genuine catalog entries. -/
def profile_primary (svc : PesticideRecommendationService)
    (crop_type disease : String) : List String :=
  ((db_lookup svc crop_type disease).map RecDict.primary_pesticides).getD []

/-- C6: region resolution maps empty input to the Default bucket,
otherwise lower-cases the text and tests the fixed keyword lists in
priority order North, South, East, West, Central with the first match
winning, and maps nonempty unmatched text to Central, which is
distinguishable from Default.  The code's branch structure
(`get_regional_bucket`) coincides pointwise with the spec's
ordered-rule resolver (`resolveRegion`). -/
theorem C6_region_resolution :
    (∀ location : String, get_regional_bucket location = bucketKey (resolveRegion location))
    ∧ resolveRegion "" = RegionBucket.Default
    ∧ resolveRegion "Some Unlisted City" = RegionBucket.Central
    ∧ RegionBucket.Central ≠ RegionBucket.Default
    ∧ get_regional_bucket "" = "default"
    ∧ get_regional_bucket "Some Unlisted City" = "central" := by
  refine ⟨fun location => ?_, by decide, by decide, by decide, by decide, by decide⟩
  by_cases h : location = ""
  · simp [get_regional_bucket, resolveRegion, h, bucketKey]
  · simp only [get_regional_bucket, resolveRegion, h, if_false,
      firstMatchBucket, region_rules]
    split_ifs <;> rfl

/-- C7: the severity multiplier and application count are total over
the severity tiers with the canonical values Healthy → 0/0, Mild →
0.8/2, Moderate → 1.0/3, Severe → 1.3/4, and both are monotonically
non-decreasing along Healthy → Mild → Moderate → Severe. -/
theorem C7_severity_tables_total_monotone :
    (∀ t : SeverityTier, get_severity_multiplier (tierName t) = tierMultiplier t)
    ∧ (∀ t : SeverityTier, get_applications_needed (tierName t) = tierApplications t)
    ∧ List.Chain' (· ≤ ·)
        [ get_severity_multiplier "healthy", get_severity_multiplier "mild"
        , get_severity_multiplier "moderate", get_severity_multiplier "severe" ]
    ∧ List.Chain' (· ≤ ·)
        [ get_applications_needed "healthy", get_applications_needed "mild"
        , get_applications_needed "moderate", get_applications_needed "severe" ] := by
  refine ⟨?_, ?_, ?_, ?_⟩
  · intro t
    cases t <;> simp [get_severity_multiplier, tierName, tierMultiplier, toLowerStr]
    norm_num
  · intro t
    cases t <;> simp [get_applications_needed, tierName, tierApplications, toLowerStr]
  · simp [List.chain'_cons, get_severity_multiplier, toLowerStr]
    norm_num
  · simp [List.chain'_cons, get_applications_needed, toLowerStr]

/-- C9: the engine is deterministic and mutation-free: invoking the
recommendation and cost operations leaves the service tables
unchanged, re-invoking with the threaded state returns the identical
plan, and the analyze pipeline is exactly the composition of the two
pure calls. -/
theorem C9_purity_determinism :
    ∀ (rsvc : PesticideRecommendationService) (csvc : CostCalculationService)
      (crop_type disease severity : String) (farm_size : ℚ)
      (location weather : String),
      (get_recommendations_step rsvc disease crop_type severity weather).2 = rsvc
      ∧ (get_recommendations_step
          (get_recommendations_step rsvc disease crop_type severity weather).2
          disease crop_type severity weather).1
          = (get_recommendations_step rsvc disease crop_type severity weather).1
      ∧ (calculate_treatment_cost_step csvc
          (get_recommendations_step rsvc disease crop_type severity weather).1.primary_pesticides
          farm_size severity location).2 = csvc
      ∧ (calculate_treatment_cost_step
          (calculate_treatment_cost_step csvc
            (get_recommendations_step rsvc disease crop_type severity weather).1.primary_pesticides
            farm_size severity location).2
          (get_recommendations_step rsvc disease crop_type severity weather).1.primary_pesticides
          farm_size severity location).1
          = (calculate_treatment_cost_step csvc
              (get_recommendations_step rsvc disease crop_type severity weather).1.primary_pesticides
              farm_size severity location).1
      ∧ analyze_pipeline rsvc csvc crop_type disease severity farm_size location weather
          = ⟨(get_recommendations_step rsvc disease crop_type severity weather).1,
             (calculate_treatment_cost_step csvc
               (get_recommendations_step rsvc disease crop_type severity weather).1.primary_pesticides
               farm_size severity location).1⟩ := by
  intro rsvc csvc crop_type disease severity farm_size location weather
  exact ⟨rfl, rfl, rfl, rfl, rfl⟩

/-- C10: the cost calculator lower-cases the severity before lookup
(so `"Severe"`/`"severe"` both give multiplier 1.3 and 4 applications,
`"Mild"` gives the scaled 0.8 multiplier), while the recommendation
selector compares against the exact lowercase literals, so capitalized
`"Severe"`/`"Mild"` never trigger the combination-treatment annotation
or the gentle copper substitution that the lowercase forms do. -/
theorem C10_severity_case_sensitivity :
    get_severity_multiplier "Severe" = 1.3
    ∧ get_severity_multiplier "severe" = 1.3
    ∧ get_applications_needed "Severe" = 4
    ∧ get_applications_needed "severe" = 4
    ∧ get_severity_multiplier "Mild" = 0.8
    ∧ get_applications_needed "Mild" = 2
    ∧ (∀ d : RecDict, adjust_for_severity d "Severe" = d)
    ∧ (∀ d : RecDict, adjust_for_severity d "Mild" = d)
    ∧ (adjust_for_severity
        { primary_pesticides := ["Streptomycin", "Mancozeb"]
        , alternative_pesticides := ["Copper Hydroxide"]
        , application_method := "Foliar spray"
        , application_frequency := some "Every 7-10 days"
        , prevention_tips := []
        , weather_note := none, timing := none, follow_up_schedule := none }
        "severe").application_method
        = "Foliar spray (combination treatment recommended)"
    ∧ (adjust_for_severity
        { primary_pesticides := ["Streptomycin", "Mancozeb"]
        , alternative_pesticides := ["Copper Hydroxide"]
        , application_method := "Foliar spray"
        , application_frequency := some "Every 7-10 days"
        , prevention_tips := []
        , weather_note := none, timing := none, follow_up_schedule := none }
        "mild").primary_pesticides
        = ["Copper Hydroxide"] := by
  refine ⟨?_, ?_, by decide, by decide, ?_, by decide, ?_, ?_, by decide, by decide⟩
  · simp [get_severity_multiplier, toLowerStr]
  · simp [get_severity_multiplier, toLowerStr]
  · simp [get_severity_multiplier, toLowerStr]
  · intro d
    simp [adjust_for_severity]
  · intro d
    simp [adjust_for_severity]

/-- C1 counterexample: a Healthy-severity request does NOT get a
zero-cost, zero-application plan — the pipeline returns the default
Copper Hydroxide plan costing 2250 for 2 ha with 3 applications; and
for a Healthy-severity request whose disease is unknown (so the
default recommendation list is nonempty) the cost-per-application
division site IS reached with `applications = 0`. -/
theorem C1_counterexample :
    (analyze_pipeline pesticide_service cost_service
      "tomato" "Healthy" "healthy" 2 "Punjab" "sunny").cost.total_cost = 2250
    ∧ (analyze_pipeline pesticide_service cost_service
        "tomato" "Healthy" "healthy" 2 "Punjab" "sunny").cost.applications_needed = 3
    ∧ (2250 : ℚ) ≠ 0
    ∧ division_reached cost_service
        (get_recommendations pesticide_service "Unknown_disease" "tomato" "healthy" "").primary_pesticides
        = true
    ∧ get_applications_needed "healthy" = 0 := by
  have hrec :
      (get_recommendations pesticide_service "Healthy" "tomato" "healthy" "sunny").primary_pesticides
        = [] := by decide
  refine ⟨?_, ?_, by norm_num, by decide, by decide⟩
  · simp [analyze_pipeline, hrec, calculate_treatment_cost,
      get_default_cost_calculation, cost_service, load_pricing_data, List.lookup]
    norm_num
  · simp [analyze_pipeline, hrec, calculate_treatment_cost,
      get_default_cost_calculation, cost_service, load_pricing_data, List.lookup]

/-- C1 as amended: for severity `healthy` the engine always returns
the default Copper Hydroxide calculation (3 applications, cost
1125·farmSize — not a zero plan), whatever the pesticide list: an
empty or unknown list short-circuits to it, and a recognized nonempty
list reaches the division with `applications = 0`, whose
`ZeroDivisionError` the blanket handler converts into the same
default plan. -/
theorem C1_healthy_returns_default_plan :
    ∀ (pesticides : List String) (farm_size : ℚ) (location : String),
      calculate_treatment_cost cost_service pesticides farm_size "healthy" location
        = get_default_cost_calculation cost_service farm_size
      ∧ (get_default_cost_calculation cost_service farm_size).applications_needed = 3
      ∧ (get_default_cost_calculation cost_service farm_size).total_cost = 1125 * farm_size
      ∧ get_applications_needed "healthy" = 0 := by
  intro pesticides farm_size location
  refine ⟨?_, rfl, ?_, by decide⟩
  · cases pesticides with
    | nil => rfl
    | cons p rest =>
      unfold calculate_treatment_cost
      cases h : cost_service.pesticide_prices.lookup p with
      | none => simp [h]
      | some data => simp [h, get_applications_needed, toLowerStr]
  · simp [get_default_cost_calculation, cost_service, load_pricing_data, List.lookup]
    ring_nf

/-- C2 counterexample: in the claimed tomato scenario (base dosage
2.5, severity moderate, weather "sunny") the adjusted dosage is 2.5
kg/ha, the total 5 kg and the cost 2250 — not the claimed 2.375 /
4.75 / 2137.5: no weather dosage multiplier exists in the code. -/
theorem C2_counterexample :
    (analyze_pipeline pesticide_service cost_service
      "tomato" "Bacterial_spot" "moderate" 2 "Punjab" "sunny").cost.amount_per_hectare = 2.5
    ∧ (analyze_pipeline pesticide_service cost_service
        "tomato" "Bacterial_spot" "moderate" 2 "Punjab" "sunny").cost.total_amount_kg = 5
    ∧ (analyze_pipeline pesticide_service cost_service
        "tomato" "Bacterial_spot" "moderate" 2 "Punjab" "sunny").cost.total_cost = 2250
    ∧ (2.5 : ℚ) ≠ 2.375
    ∧ (5 : ℚ) ≠ 4.75
    ∧ (2250 : ℚ) ≠ 2137.5 := by
  have hrec :
      (get_recommendations pesticide_service "Bacterial_spot" "tomato" "moderate" "sunny").primary_pesticides
        = ["Copper Hydroxide", "Streptomycin"] := by decide
  refine ⟨?_, ?_, ?_, by norm_num, by norm_num, by norm_num⟩
  · simp [analyze_pipeline, hrec, calculate_treatment_cost, cost_service, load_pricing_data,
      get_severity_multiplier, get_applications_needed, get_regional_multiplier,
      get_regional_bucket, north_states, toLowerStr, containsSub, listHasSeg,
      listBeginsWith, List.lookup]
    norm_num
  · simp [analyze_pipeline, hrec, calculate_treatment_cost, cost_service, load_pricing_data,
      get_severity_multiplier, get_applications_needed, get_regional_multiplier,
      get_regional_bucket, north_states, toLowerStr, containsSub, listHasSeg,
      listBeginsWith, List.lookup]
    norm_num
  · simp [analyze_pipeline, hrec, calculate_treatment_cost, cost_service, load_pricing_data,
      get_severity_multiplier, get_applications_needed, get_regional_multiplier,
      get_regional_bucket, north_states, toLowerStr, containsSub, listHasSeg,
      listBeginsWith, List.lookup]
    norm_num

/-- C2 as amended: the adjusted dosage per hectare is the base dosage
times the severity multiplier ONLY — the weather text is not an input
of the cost computation, and the weather adjustment of the
recommendation service can change nothing but the advisory
`weather_note`. -/
theorem C2_dosage_severity_only :
    (∀ (p : String) (data : PesticideData) (rest : List String) (farm_size : ℚ)
        (severity location : String),
      cost_service.pesticide_prices.lookup p = some data →
      get_applications_needed severity ≠ 0 →
      (calculate_treatment_cost cost_service (p :: rest) farm_size severity location).amount_per_hectare
          = data.dosage_per_hectare * get_severity_multiplier severity
      ∧ (calculate_treatment_cost cost_service (p :: rest) farm_size severity location).total_amount_kg
          = data.dosage_per_hectare * get_severity_multiplier severity * farm_size)
    ∧ (∀ (r : RecDict) (w : String),
        adjust_for_weather r w = { r with weather_note := (adjust_for_weather r w).weather_note }) := by
  constructor
  · intro p data rest farm_size severity location hlook happ
    unfold calculate_treatment_cost
    simp [hlook, happ]
  · intro r w
    simp only [adjust_for_weather]
    split_ifs <;> rfl

/-- Witness for `C2_dosage_severity_only` at the tomato scenario. -/
theorem C2_dosage_severity_only_witness :
    cost_service.pesticide_prices.lookup "Copper Hydroxide" = some ⟨450, 2.5, 500, 0.1⟩
    ∧ get_applications_needed "moderate" ≠ 0
    ∧ (calculate_treatment_cost cost_service
        ["Copper Hydroxide", "Streptomycin"] 2 "moderate" "Punjab").amount_per_hectare
        = (⟨450, 2.5, 500, 0.1⟩ : PesticideData).dosage_per_hectare
            * get_severity_multiplier "moderate" := by
  refine ⟨rfl, by decide, ?_⟩
  exact (C2_dosage_severity_only.1 "Copper Hydroxide" ⟨450, 2.5, 500, 0.1⟩
    ["Streptomycin"] 2 "moderate" "Punjab" rfl (by decide)).1

/-- C3 counterexample: a request with farmSizeHectares = -1 is not
rejected — the pipeline computes a complete (negative-quantity) plan
from the non-positive value. -/
theorem C3_counterexample :
    ((-1 : ℚ) ≤ 0)
    ∧ (analyze_pipeline pesticide_service cost_service
        "tomato" "Bacterial_spot" "moderate" (-1) "" "").cost.total_amount_kg = -(5/2)
    ∧ (analyze_pipeline pesticide_service cost_service
        "tomato" "Bacterial_spot" "moderate" (-1) "" "").cost.total_cost = -1125
    ∧ (analyze_pipeline pesticide_service cost_service
        "tomato" "Bacterial_spot" "moderate" (-1) "" "").cost.pesticide_name
        = "Copper Hydroxide" := by
  have hrec :
      (get_recommendations pesticide_service "Bacterial_spot" "tomato" "moderate" "").primary_pesticides
        = ["Copper Hydroxide", "Streptomycin"] := by decide
  refine ⟨by norm_num, ?_, ?_, ?_⟩
  · simp [analyze_pipeline, hrec, calculate_treatment_cost, cost_service, load_pricing_data,
      get_severity_multiplier, get_applications_needed, get_regional_multiplier,
      get_regional_bucket, toLowerStr, containsSub, listHasSeg, listBeginsWith, List.lookup]
    norm_num
  · simp [analyze_pipeline, hrec, calculate_treatment_cost, cost_service, load_pricing_data,
      get_severity_multiplier, get_applications_needed, get_regional_multiplier,
      get_regional_bucket, toLowerStr, containsSub, listHasSeg, listBeginsWith, List.lookup]
    norm_num
  · simp [analyze_pipeline, hrec, calculate_treatment_cost, cost_service, load_pricing_data,
      get_severity_multiplier, get_applications_needed, get_regional_multiplier,
      get_regional_bucket, toLowerStr, containsSub, listHasSeg, listBeginsWith, List.lookup]

/-- C3 as amended: neither the handler nor the engine validates the
farm size; a non-positive farmSizeHectares is neither rejected nor
replaced by a default — it flows into the arithmetic unchanged,
scaling every quantity (so the plan is zero/negative), and the plan
is still built on the requested pesticide. -/
theorem C3_no_farm_size_validation :
    ∀ farm_size : ℚ, farm_size ≤ 0 →
      (calculate_treatment_cost cost_service
          ["Copper Hydroxide"] farm_size "moderate" "").total_amount_kg = 2.5 * farm_size
      ∧ (calculate_treatment_cost cost_service
          ["Copper Hydroxide"] farm_size "moderate" "").total_cost = 1125 * farm_size
      ∧ (calculate_treatment_cost cost_service
          ["Copper Hydroxide"] farm_size "moderate" "").pesticide_name = "Copper Hydroxide" := by
  intro farm_size hfs
  refine ⟨?_, ?_, ?_⟩
  · simp [calculate_treatment_cost, cost_service, load_pricing_data,
      get_severity_multiplier, get_applications_needed, get_regional_multiplier,
      get_regional_bucket, toLowerStr, containsSub, listHasSeg, listBeginsWith, List.lookup]
    norm_num
  · simp [calculate_treatment_cost, cost_service, load_pricing_data,
      get_severity_multiplier, get_applications_needed, get_regional_multiplier,
      get_regional_bucket, toLowerStr, containsSub, listHasSeg, listBeginsWith, List.lookup]
    ring_nf
  · simp [calculate_treatment_cost, cost_service, load_pricing_data,
      get_severity_multiplier, get_applications_needed, get_regional_multiplier,
      get_regional_bucket, toLowerStr, containsSub, listHasSeg, listBeginsWith, List.lookup]

/-- Witness for `C3_no_farm_size_validation` at farm size -1. -/
theorem C3_no_farm_size_validation_witness :
    ((-1 : ℚ) ≤ 0)
    ∧ (calculate_treatment_cost cost_service
        ["Copper Hydroxide"] (-1) "moderate" "").total_amount_kg = 2.5 * (-1) := by
  exact ⟨by norm_num, (C3_no_farm_size_validation (-1) (by norm_num)).1⟩

/-- C4 counterexample: the unknown-disease fallback carries no explicit
flag (its record is exactly the default profile, whose fields mirror
the source dict, which has no fallback marker key) and no sentinel
substance name: both of its primary substances are ordinary catalog
names that appear as primary substances of genuine disease profiles of
the same crop. -/
theorem C4_counterexample :
    get_recommendations pesticide_service "Unknown_disease" "tomato" "moderate" ""
      = get_default_recommendations "tomato"
    ∧ (get_default_recommendations "tomato").primary_pesticides
        = ["Copper Hydroxide", "Mancozeb"]
    ∧ profile_primary pesticide_service "tomato" "Bacterial_spot"
        = ["Copper Hydroxide", "Streptomycin"]
    ∧ profile_primary pesticide_service "tomato" "Early_blight"
        = ["Mancozeb", "Chlorothalonil"]
    ∧ "Copper Hydroxide" ∈ profile_primary pesticide_service "tomato" "Bacterial_spot"
    ∧ "Mancozeb" ∈ profile_primary pesticide_service "tomato" "Early_blight" := by
  refine ⟨by decide, by decide, by decide, by decide, by decide, by decide⟩

/-- C4 as amended: for any crop and a disease with no catalog entry
the recommendation operation returns the engine-wide default profile
and never raises; the returned plan carries no explicit fallback flag
and uses ordinary catalog substance names, so it is not marked as
degraded in the way the claim requires. -/
theorem C4_unknown_disease_default :
    ∀ (crop_type disease severity weather : String),
      db_lookup pesticide_service crop_type disease = none →
      get_recommendations pesticide_service disease crop_type severity weather
        = get_default_recommendations crop_type := by
  intro crop_type disease severity weather h
  unfold get_recommendations
  simp [h]

/-- Witness for `C4_unknown_disease_default`: a concrete unknown
disease of the known crop tomato. -/
theorem C4_unknown_disease_default_witness :
    db_lookup pesticide_service "tomato" "Imaginary_wilt" = none
    ∧ get_recommendations pesticide_service "Imaginary_wilt" "tomato" "severe" "rainy"
        = get_default_recommendations "tomato" := by
  exact ⟨by decide,
    C4_unknown_disease_default "tomato" "Imaginary_wilt" "severe" "rainy" (by decide)⟩

/-- C5 counterexample: with primary = [Streptomycin, Copper Hydroxide]
and an EMPTY alternative list, the union contains the copper match
"Copper Hydroxide", yet `adjust_for_severity` at mild leaves the
primary list unchanged — the claimed replacement with the matches does
not happen. -/
theorem C5_counterexample :
    (adjust_for_severity
      { primary_pesticides := ["Streptomycin", "Copper Hydroxide"]
      , alternative_pesticides := []
      , application_method := "Foliar spray"
      , application_frequency := none
      , prevention_tips := []
      , weather_note := none, timing := none, follow_up_schedule := none }
      "mild").primary_pesticides
      = ["Streptomycin", "Copper Hydroxide"]
    ∧ (["Streptomycin", "Copper Hydroxide"] ++ ([] : List String)).filter
        (fun p => containsSub (toLowerStr p) "copper")
        = ["Copper Hydroxide"]
    ∧ ["Streptomycin", "Copper Hydroxide"] ≠ ["Copper Hydroxide"] := by
  refine ⟨by decide, by decide, by decide⟩

/-- C5 as amended: the mild-severity gentle substitution additionally
requires the alternative list to be nonempty (the source guards on
`recommendations.get('alternative_pesticides')`): when it is empty the
primary list is kept even if copper matches exist; when it is
nonempty, the primary list is replaced by the first two
case-insensitive "copper" matches of primary ++ alternative (in their
original order) if any exist, and kept unchanged otherwise. -/
theorem C5_mild_substitution_requires_alternatives :
    ∀ d : RecDict,
      (d.alternative_pesticides = [] → adjust_for_severity d "mild" = d)
      ∧ (d.alternative_pesticides ≠ [] →
          (((d.primary_pesticides ++ d.alternative_pesticides).filter
              (fun p => containsSub (toLowerStr p) "copper")) = [] →
            adjust_for_severity d "mild" = d)
          ∧ (((d.primary_pesticides ++ d.alternative_pesticides).filter
              (fun p => containsSub (toLowerStr p) "copper")) ≠ [] →
            adjust_for_severity d "mild"
              = { d with primary_pesticides :=
                    ((d.primary_pesticides ++ d.alternative_pesticides).filter
                      (fun p => containsSub (toLowerStr p) "copper")).take 2 })) := by
  intro d
  constructor
  · intro h
    simp [adjust_for_severity, h]
  · intro h
    constructor
    · intro hm
      simp [adjust_for_severity, h, hm]
    · intro hm
      simp only [adjust_for_severity, reduceIte]
      rw [if_pos h, if_pos hm, if_neg (by decide : ¬("mild" : String) = "severe")]

/-- Witness for `C5_mild_substitution_requires_alternatives` at the
claim's own example: primary = [Streptomycin, Mancozeb], alternative =
[Copper Hydroxide], severity mild gives primary = [Copper Hydroxide]. -/
theorem C5_mild_substitution_requires_alternatives_witness :
    (adjust_for_severity
      { primary_pesticides := ["Streptomycin", "Mancozeb"]
      , alternative_pesticides := ["Copper Hydroxide"]
      , application_method := "Foliar spray"
      , application_frequency := some "Every 7-10 days"
      , prevention_tips := []
      , weather_note := none, timing := none, follow_up_schedule := none }
      "mild").primary_pesticides
      = ["Copper Hydroxide"] := by
  have h := ((C5_mild_substitution_requires_alternatives
    { primary_pesticides := ["Streptomycin", "Mancozeb"]
    , alternative_pesticides := ["Copper Hydroxide"]
    , application_method := "Foliar spray"
    , application_frequency := some "Every 7-10 days"
    , prevention_tips := []
    , weather_note := none, timing := none, follow_up_schedule := none }).2
    (by decide)).2 (by decide)
  rw [h]
  decide

/-- C8 counterexample: the follow-up schedule is NOT a function of the
severity tier alone, and the prevention-only schedule is NOT triggered
by the Healthy severity tier: severity "healthy" with a diseased crop
name yields the mild schedule, while disease name "Healthy" forces the
prevention-only schedule even at severity "severe". -/
theorem C8_counterexample :
    get_follow_up_schedule "Early_blight" "healthy"
      = [ "Monitor weekly", "Assess after 14 days"
        , "Apply preventive treatments as needed"
        , "Continue monitoring throughout season" ]
    ∧ get_follow_up_schedule "Early_blight" "healthy"
        ≠ [ "Continue regular monitoring", "Apply preventive measures"
          , "Maintain good cultural practices" ]
    ∧ get_follow_up_schedule "Healthy" "severe"
        = [ "Continue regular monitoring", "Apply preventive measures"
          , "Maintain good cultural practices" ]
    ∧ get_follow_up_schedule "Early_blight" "severe"
        ≠ get_follow_up_schedule "Healthy" "severe" := by
  refine ⟨by decide, by decide, by decide, by decide⟩

/-- C8 as amended: the follow-up schedule is keyed on the pair
(lower-cased disease name, severity): severity picks one of three
fixed schedules (severe / moderate / everything else mild — there is
no severity-keyed Healthy schedule), and the prevention-only schedule
overrides that choice unconditionally exactly when the lower-cased
DISEASE name is "healthy". -/
theorem C8_follow_up_keyed_on_disease_name :
    ∀ (disease severity : String),
      (toLowerStr disease = "healthy" →
        get_follow_up_schedule disease severity = healthy_follow_up)
      ∧ (toLowerStr disease ≠ "healthy" →
          get_follow_up_schedule disease severity
            = if severity = "severe" then severe_follow_up
              else if severity = "moderate" then moderate_follow_up
              else mild_follow_up) := by
  intro disease severity
  constructor
  · intro h
    simp [get_follow_up_schedule, h, healthy_follow_up]
  · intro h
    simp only [get_follow_up_schedule, h, if_false,
      severe_follow_up, moderate_follow_up, mild_follow_up]

/-- Witness for `C8_follow_up_keyed_on_disease_name`: disease
"Healthy" at severity "severe" gets the prevention-only schedule;
disease "Early_blight" at severity "healthy" gets the mild schedule. -/
theorem C8_follow_up_keyed_on_disease_name_witness :
    get_follow_up_schedule "Healthy" "severe" = healthy_follow_up
    ∧ get_follow_up_schedule "Early_blight" "healthy" = mild_follow_up := by
  constructor
  · exact (C8_follow_up_keyed_on_disease_name "Healthy" "severe").1 (by decide)
  · have h := (C8_follow_up_keyed_on_disease_name "Early_blight" "healthy").2 (by decide)
    simpa using h
